import Mathlib

/-!
Verification of `src/twitter_downloader.py` (Twitter/X Video Downloader).

The Python module is embedded shallowly:

* `es_url_valida` embeds `re.match` of the literal pattern
  `https?://(www\.)?(twitter\.com|x\.com)/.+/status/\d+` (anchored at the
  start, no end anchor; `.` is any character except `'\n'`; `\d` is modelled
  as the ASCII digits recognised by `Char.isDigit`; the optional `s` of
  `https?` is rendered as the equivalent literal alternation
  `http://` | `https://`).
* The external `yt_dlp` engine is an opaque collaborator `MotorYdl`: an
  `extract` oracle that either yields a metadata record `InfoVideo` or raises
  one of the two exception classes distinguished by the program
  (`yt_dlp.utils.DownloadError` versus any other `Exception`), plus a
  `prepare_filename` resolver. `Path(...).mkdir(parents=True, exist_ok=True)`
  acts on an explicit file-system state: the list of directories present.
* Console I/O is explicit: reads consume a list of input lines, prints
  accumulate in an output list; `str.strip` / `str.lower` are `recortar` /
  `minusculas` over the character list (ASCII whitespace and case, as the
  program only compares ASCII tokens); `os.path.abspath` is modelled as the
  path itself (the process working directory is outside the embedding).
-/

/-! ## The URL validator (`es_url_valida`, lines 26-29) -/

/-- Consume the literal character list `p` from the front of `l`
(the way `re` matches a literal fragment). -/
def quitarLiteral : List Char → List Char → Option (List Char)
  | [], l => some l
  | _ :: _, [] => none
  | p :: ps, c :: cs => if p = c then quitarLiteral ps cs else none

/-- Match a literal fragment and hand the rest of the input to
the continuation `k` (backtracking is not needed for literals). -/
def trasLiteral (p : List Char) (k : List Char → Bool) (l : List Char) : Bool :=
  match quitarLiteral p l with
  | some r => k r
  | none => false

/-- The regex fragment `\d+` with nothing after it: a match exists
iff the input starts with one digit. -/
def cabezaDigito : List Char → Bool
  | c :: _ => c.isDigit
  | [] => false

/-- The regex fragment `/status/\d+`. -/
def estadoDigito (l : List Char) : Bool :=
  trasLiteral "/status/".data cabezaDigito l

/-- The regex fragment `.+/status/\d+`: consume one or more non-newline
characters, then the literal tail — trying every split point, which is
what backtracking existence amounts to. -/
def puntoBusca : List Char → Bool
  | [] => false
  | c :: rest => (c != '\n') && (estadoDigito rest || puntoBusca rest)

/-- The regex fragment `(twitter\.com|x\.com)/.+/status/\d+`. -/
def anfitrion (l : List Char) : Bool :=
  trasLiteral "twitter.com/".data puntoBusca l ||
  trasLiteral "x.com/".data puntoBusca l

/-- The regex fragment `(www\.)?(twitter\.com|x\.com)/.+/status/\d+`. -/
def wwwOpcional (l : List Char) : Bool :=
  trasLiteral "www.".data anfitrion l || anfitrion l

/-- The whole pattern, with `https?://` unfolded to the equivalent
alternation of the two literals `http://` and `https://`. -/
def esquema (l : List Char) : Bool :=
  trasLiteral "http://".data wwwOpcional l ||
  trasLiteral "https://".data wwwOpcional l

/-- `es_url_valida` (lines 26-29): `bool(re.match(patron, url))`. -/
def es_url_valida (url : String) : Bool :=
  esquema url.data

/-- Declarative reading of the pattern
`https?://(www\.)?(twitter\.com|x\.com)/.+/status/\d+` matched at the start
of `s` with an arbitrary suffix `r` left over (no end anchor). -/
def CoincidePatron (s : String) : Prop :=
  ∃ pre www host a d r,
    (pre = "http://".data ∨ pre = "https://".data) ∧
    (www = ([] : List Char) ∨ www = "www.".data) ∧
    (host = "twitter.com".data ∨ host = "x.com".data) ∧
    a ≠ [] ∧ (∀ c ∈ a, c ≠ '\n') ∧
    d ≠ [] ∧ (∀ c ∈ d, c.isDigit = true) ∧
    s.data = pre ++ www ++ host ++ '/' :: (a ++ "/status/".data ++ d ++ r)

example : es_url_valida "https://twitter.com/user/status/12345" = true := by decide
example : es_url_valida "https://x.com/user/status/999" = true := by decide
example : es_url_valida "http://www.twitter.com/a/b/status/7tail" = true := by decide
example : es_url_valida "https://example.com/status/1" = false := by decide
example : es_url_valida "https://x.com/status/abc" = false := by decide
example : es_url_valida "" = false := by decide

theorem quitarLiteral_eq_some (p : List Char) :
    ∀ l r, quitarLiteral p l = some r ↔ l = p ++ r := by
  induction p with
  | nil => intro l r; simp [quitarLiteral]
  | cons pc ps ih =>
    intro l r
    cases l with
    | nil => simp [quitarLiteral]
    | cons c cs =>
      by_cases h : pc = c
      · subst h
        simp [quitarLiteral, ih]
      · simp only [quitarLiteral, if_neg h, List.cons_append]
        constructor
        · intro hfalse; cases hfalse
        · intro heq
          exact absurd (List.cons.injEq .. ▸ heq).1.symm h

theorem trasLiteral_eq_true (p : List Char) (k : List Char → Bool) (l : List Char) :
    trasLiteral p k l = true ↔ ∃ r, l = p ++ r ∧ k r = true := by
  unfold trasLiteral
  cases h : quitarLiteral p l with
  | none =>
    simp only [Bool.false_eq_true, false_iff]
    rintro ⟨r, hl, -⟩
    rw [← quitarLiteral_eq_some p l r] at hl
    simp [hl] at h
  | some r =>
    rw [quitarLiteral_eq_some] at h
    subst h
    constructor
    · intro hk; exact ⟨r, rfl, hk⟩
    · rintro ⟨r', hr', hk⟩
      have : r = r' := List.append_cancel_left hr'
      exact this ▸ hk

theorem cabezaDigito_eq_true (l : List Char) :
    cabezaDigito l = true ↔ ∃ c r, c.isDigit = true ∧ l = c :: r := by
  cases l with
  | nil => simp [cabezaDigito]
  | cons c r =>
    simp only [cabezaDigito]
    constructor
    · intro h; exact ⟨c, r, h, rfl⟩
    · rintro ⟨c', r', hd, heq⟩
      obtain ⟨rfl, rfl⟩ : c = c' ∧ r = r' := by
        constructor <;> [exact (List.cons.injEq .. ▸ heq).1; exact (List.cons.injEq .. ▸ heq).2]
      exact hd

theorem estadoDigito_eq_true (l : List Char) :
    estadoDigito l = true ↔
      ∃ c r, c.isDigit = true ∧ l = "/status/".data ++ c :: r := by
  unfold estadoDigito
  rw [trasLiteral_eq_true]
  constructor
  · rintro ⟨r, rfl, hk⟩
    obtain ⟨c, r', hd, rfl⟩ := (cabezaDigito_eq_true r).1 hk
    exact ⟨c, r', hd, rfl⟩
  · rintro ⟨c, r, hd, rfl⟩
    exact ⟨c :: r, rfl, (cabezaDigito_eq_true _).2 ⟨c, r, hd, rfl⟩⟩

theorem puntoBusca_eq_true (l : List Char) :
    puntoBusca l = true ↔
      ∃ a rest, a ≠ [] ∧ (∀ c ∈ a, c ≠ '\n') ∧ estadoDigito rest = true ∧
        l = a ++ rest := by
  induction l with
  | nil =>
    simp only [puntoBusca, Bool.false_eq_true, false_iff]
    rintro ⟨a, rest, hne, -, -, heq⟩
    cases a with
    | nil => exact hne rfl
    | cons x xs => cases heq
  | cons c rest ih =>
    simp only [puntoBusca, Bool.and_eq_true, Bool.or_eq_true, bne_iff_ne, ne_eq]
    constructor
    · rintro ⟨hc, hrest | hbusca⟩
      · exact ⟨[c], rest, by simp, by simp [hc], hrest, rfl⟩
      · obtain ⟨a, r', hne, hnl, hd, rfl⟩ := ih.1 hbusca
        exact ⟨c :: a, r', by simp, by
          intro x hx
          rcases List.mem_cons.1 hx with rfl | hx
          · exact hc
          · exact hnl x hx, hd, rfl⟩
    · rintro ⟨a, r', hne, hnl, hd, heq⟩
      cases a with
      | nil => exact absurd rfl hne
      | cons x xs =>
        obtain ⟨rfl, htail⟩ : x = c ∧ xs ++ r' = rest := by
          rw [List.cons_append] at heq
          exact ⟨(List.cons.injEq .. ▸ heq).1.symm, (List.cons.injEq .. ▸ heq).2.symm⟩
        refine ⟨hnl x (by simp), ?_⟩
        cases xs with
        | nil => left; simpa using htail ▸ hd
        | cons y ys =>
          right
          exact ih.2 ⟨y :: ys, r', by simp, fun z hz => hnl z (by simp [List.mem_cons.1 hz]),
            hd, htail.symm⟩

theorem anfitrion_eq_true (l : List Char) :
    anfitrion l = true ↔
      ∃ host rest, (host = "twitter.com".data ∨ host = "x.com".data) ∧
        puntoBusca rest = true ∧ l = host ++ '/' :: rest := by
  unfold anfitrion
  simp only [Bool.or_eq_true, trasLiteral_eq_true]
  constructor
  · rintro (⟨r, rfl, hp⟩ | ⟨r, rfl, hp⟩)
    · exact ⟨"twitter.com".data, r, Or.inl rfl, hp, by simp⟩
    · exact ⟨"x.com".data, r, Or.inr rfl, hp, by simp⟩
  · rintro ⟨host, rest, (rfl | rfl), hp, rfl⟩
    · exact Or.inl ⟨rest, by simp, hp⟩
    · exact Or.inr ⟨rest, by simp, hp⟩

theorem wwwOpcional_eq_true (l : List Char) :
    wwwOpcional l = true ↔
      ∃ www rest, (www = ([] : List Char) ∨ www = "www.".data) ∧
        anfitrion rest = true ∧ l = www ++ rest := by
  unfold wwwOpcional
  simp only [Bool.or_eq_true, trasLiteral_eq_true]
  constructor
  · rintro (⟨r, rfl, hp⟩ | hp)
    · exact ⟨"www.".data, r, Or.inr rfl, hp, rfl⟩
    · exact ⟨[], l, Or.inl rfl, hp, rfl⟩
  · rintro ⟨www, rest, (rfl | rfl), hp, rfl⟩
    · exact Or.inr (by simpa using hp)
    · exact Or.inl ⟨rest, rfl, hp⟩

theorem esquema_eq_true (l : List Char) :
    esquema l = true ↔
      ∃ pre rest, (pre = "http://".data ∨ pre = "https://".data) ∧
        wwwOpcional rest = true ∧ l = pre ++ rest := by
  unfold esquema
  simp only [Bool.or_eq_true, trasLiteral_eq_true]
  constructor
  · rintro (⟨r, rfl, hp⟩ | ⟨r, rfl, hp⟩)
    · exact ⟨"http://".data, r, Or.inl rfl, hp, rfl⟩
    · exact ⟨"https://".data, r, Or.inr rfl, hp, rfl⟩
  · rintro ⟨pre, rest, (rfl | rfl), hp, rfl⟩
    · exact Or.inl ⟨rest, rfl, hp⟩
    · exact Or.inr ⟨rest, rfl, hp⟩

/-- C1: for every string `s`, `es_url_valida s` is `true` iff `s` matches the
regular expression `https?://(www\.)?(twitter\.com|x\.com)/.+/status/\d+`
anchored at the start of `s` and with no end anchor (an arbitrary suffix may
follow the digits); the validator is a pure total Boolean function. -/
theorem c1_validador_url (s : String) : es_url_valida s = true ↔ CoincidePatron s := by
  unfold es_url_valida CoincidePatron
  rw [esquema_eq_true]
  constructor
  · rintro ⟨pre, rest1, hpre, hwww, heq⟩
    obtain ⟨www, rest2, hw, hanf, rfl⟩ := (wwwOpcional_eq_true rest1).1 hwww
    obtain ⟨host, rest3, hh, hpb, rfl⟩ := (anfitrion_eq_true rest2).1 hanf
    obtain ⟨a, rest4, hane, hanl, hed, rfl⟩ := (puntoBusca_eq_true rest3).1 hpb
    obtain ⟨c, r, hcd, rfl⟩ := (estadoDigito_eq_true rest4).1 hed
    refine ⟨pre, www, host, a, [c], r, hpre, hw, hh, hane, hanl, by simp, ?_, ?_⟩
    · intro z hz; simpa using (List.mem_singleton.1 hz) ▸ hcd
    · rw [heq]; simp
  · rintro ⟨pre, www, host, a, d, r, hpre, hw, hh, hane, hanl, hdne, hdd, heq⟩
    cases d with
    | nil => exact absurd rfl hdne
    | cons c ds =>
      refine ⟨pre, www ++ host ++ '/' :: (a ++ "/status/".data ++ c :: (ds ++ r)),
        hpre, ?_, by simpa using heq⟩
      rw [wwwOpcional_eq_true]
      refine ⟨www, host ++ '/' :: (a ++ "/status/".data ++ c :: (ds ++ r)), hw, ?_, by simp⟩
      rw [anfitrion_eq_true]
      refine ⟨host, a ++ "/status/".data ++ c :: (ds ++ r), hh, ?_, by simp⟩
      rw [puntoBusca_eq_true]
      refine ⟨a, "/status/".data ++ c :: (ds ++ r), hane, hanl, ?_, by simp⟩
      rw [estadoDigito_eq_true]
      exact ⟨c, ds ++ r, hdd c (by simp), rfl⟩

/-! ## Python string and path helpers used by the program -/

/-- The ASCII whitespace stripped by Python `str.strip()` with no argument. -/
def esEspacio (c : Char) : Bool :=
  c = ' ' || c = '\t' || c = '\n' || c = '\r' || c = '\x0b' || c = '\x0c'

/-- Python `s.strip()`: drop leading and trailing whitespace. -/
def recortar (s : String) : String :=
  ⟨((s.data.dropWhile esEspacio).reverse.dropWhile esEspacio).reverse⟩

/-- Python `s.lower()` on the ASCII letters the program compares. -/
def minusculas (s : String) : String :=
  ⟨s.data.map Char.toLower⟩

/-- Python `os.path.join(a, b)` for the one join the program performs. -/
def unirRuta (a b : String) : String :=
  if a = "" then b
  else if a.data.getLast? = some '/' then a ++ b
  else a ++ "/" ++ b

/-- The output template `"%(uploader)s_%(id)s.%(ext)s"` of line 57. -/
def plantillaSalida : String := "%(uploader)s_%(id)s.%(ext)s"

/-! ## The file system and `Path(carpeta).mkdir(parents=True, exist_ok=True)` -/

/-- The directories currently present, in creation order. -/
abbrev SistemaArchivos := List String

/-- Creating one directory: a no-op when it already exists (`exist_ok=True`). -/
def insertaDir (fs : SistemaArchivos) (d : String) : SistemaArchivos :=
  if d ∈ fs then fs else fs ++ [d]

/-- Split a path into its `/`-separated components. -/
def divideRuta : List Char → List (List Char)
  | [] => [[]]
  | c :: rest =>
    if c = '/' then [] :: divideRuta rest
    else
      match divideRuta rest with
      | [] => [[c]]
      | g :: gs => (c :: g) :: gs

/-- The chain of ancestor paths `mkdir(parents=True)` creates, outermost
first: for `"a/b/c"` this is `["a", "a/b", "a/b/c"]`. -/
def ancestros (p : String) : List String :=
  (List.range (divideRuta p.data).length).map
    (fun i => ⟨List.intercalate ['/'] ((divideRuta p.data).take (i + 1))⟩)

/-- `Path(p).mkdir(parents=True, exist_ok=True)`: create every missing
ancestor of `p` and `p` itself, never failing. -/
def mkdirPadres (fs : SistemaArchivos) (p : String) : SistemaArchivos :=
  (ancestros p).foldl insertaDir fs

example : ancestros "a/b" = ["a", "a/b"] := by decide

/-! ## The `yt_dlp` collaborator -/

/-- The two classes of exception the program distinguishes:
`yt_dlp.utils.DownloadError` versus any other `Exception`. -/
inductive ExcepcionPy where
  | descargaError (msg : String)
  | otraExcepcion (msg : String)
deriving DecidableEq

/-- The text interpolated by `f"... {e}"` when the exception is printed. -/
def mensajeDe : ExcepcionPy → String
  | .descargaError m => m
  | .otraExcepcion m => m

/-- The metadata record returned by `extract_info`: the fields the program
reads, each `Option` because it uses `info.get(...)`; a format record is
reduced to its optional `height`. -/
structure InfoVideo where
  title : Option String
  uploader : Option String
  duration : Option Nat
  upload_date : Option String
  formats : List (Option Nat)
deriving DecidableEq

/-- The opaque extraction engine: `extract url download` either returns
metadata or raises, and `preparaNombre` is `prepare_filename`. -/
structure MotorYdl where
  extract : String → Bool → Except ExcepcionPy InfoVideo
  preparaNombre : InfoVideo → String

/-- One observable engine invocation: the `format` and `outtmpl` options
passed to `YoutubeDL` (absent for the info path) and the
`extract_info(url, download=...)` arguments. -/
structure Llamada where
  formato : Option String
  outtmpl : Option String
  url : String
  download : Bool
deriving DecidableEq

/-! ## Quality maps (lines 47-53 and line 143) -/

/-- The dict `{"1": "best", "2": "720", "3": "480", "4": "360", "5": "worst"}`
with `.get(_, "best")` (line 143-144). -/
def calidades (s : String) : String :=
  if s = "1" then "best"
  else if s = "2" then "720"
  else if s = "3" then "480"
  else if s = "4" then "360"
  else if s = "5" then "worst"
  else "best"

/-- The dict of lines 47-53 with `.get(calidad, "best")`. -/
def formatoDe (calidad : String) : String :=
  if calidad = "best" then "best"
  else if calidad = "worst" then "worst"
  else if calidad = "720" then "best[height<=720]"
  else if calidad = "480" then "best[height<=480]"
  else if calidad = "360" then "best[height<=360]"
  else "best"

/-! ## `descargar_video` (lines 32-81) -/

/-- What a `descargar_video` run leaves behind: its return value (`None`
becomes `none`), the lines printed, the file system, and the engine calls. -/
structure ResultadoDescarga where
  ret : Option String
  salida : List String
  fs : SistemaArchivos
  llamadas : List Llamada
deriving DecidableEq

/-- `descargar_video(url, carpeta_destino=".", calidad="best")`: create the
destination, map the quality, run the engine, and handle
`yt_dlp.utils.DownloadError` and every other `Exception` in place. -/
def descargar_video (ydl : MotorYdl) (fs : SistemaArchivos) (url : String)
    (carpeta : String := ".") (calidad : String := "best") : ResultadoDescarga :=
  let fs1 := mkdirPadres fs carpeta
  let formato := formatoDe calidad
  let plantilla := unirRuta carpeta plantillaSalida
  let cabecera : List String :=
    ["\n Descargando video...", "   URL: " ++ url, "   Destino: " ++ carpeta,
     "   Calidad: " ++ calidad ++ "\n"]
  let ll : List Llamada := [⟨some formato, some plantilla, url, true⟩]
  match ydl.extract url true with
  | .ok info =>
    let nombre := ydl.preparaNombre info
    ⟨some nombre,
     cabecera ++ ["\n✅ Video descargado exitosamente!", "   Archivo: " ++ nombre],
     fs1, ll⟩
  | .error (.descargaError e) =>
    ⟨none,
     cabecera ++ ["\n❌ Error al descargar: " ++ e,
       "   Asegúrate de que el tweet sea público y contenga un video."],
     fs1, ll⟩
  | .error (.otraExcepcion e) =>
    ⟨none, cabecera ++ ["\n❌ Error inesperado: " ++ e], fs1, ll⟩

/-! ## `obtener_info` (lines 84-112) -/

/-- What an `obtener_info` run leaves behind (it returns `None` either way). -/
structure ResultadoInfo where
  salida : List String
  llamadas : List Llamada
deriving DecidableEq

/-- The heights collected into the set `resoluciones` (lines 104-108):
`f.get("height")` must be truthy, so `None` and `0` are both skipped;
`dedup` plays the role of the set (first occurrences kept). -/
def alturasDe (info : InfoVideo) : List Nat :=
  ((info.formats.filterMap id).filter (fun h => decide (h ≠ 0))).dedup

/-- `sorted(resoluciones, reverse=True)`: the distinct heights in
descending order. -/
def ordenaDesc (l : List Nat) : List Nat :=
  l.insertionSort (· ≥ ·)

/-- The text printed for `info.get('duration', 'N/A')`. -/
def textoDuracion : Option Nat → String
  | some n => toString n
  | none => "N/A"

/-- `obtener_info(url)`: metadata-only extraction (`download=False`),
print the fields, print the sorted resolutions when any exist, and catch
every `Exception`. -/
def obtener_info (ydl : MotorYdl) (url : String) : ResultadoInfo :=
  let cabecera : List String := ["\n Obteniendo información del video..."]
  let ll : List Llamada := [⟨none, none, url, false⟩]
  match ydl.extract url false with
  | .ok info =>
    let res := ordenaDesc (alturasDe info)
    ⟨cabecera ++
      ["\n Información del video:",
       "   Título:    " ++ info.title.getD "N/A",
       "   Usuario:   " ++ info.uploader.getD "N/A",
       "   Duración:  " ++ textoDuracion info.duration ++ " segundos",
       "   Fecha:     " ++ info.upload_date.getD "N/A"] ++
      (if res.isEmpty then []
       else ["   Calidades: " ++
         String.intercalate ", " (res.map (fun h => toString h ++ "p"))]),
     ll⟩
  | .error e =>
    ⟨cabecera ++ ["❌ No se pudo obtener información: " ++ mensajeDe e], ll⟩

/-! ## The interactive driver (`menu_interactivo`, lines 115-179)

Each `input(...)` consumes the next line of an explicit input script; the
prompt it displays is appended to the output.  An exhausted script ends the
session (the terminal was closed).  Each branch of the loop body is a named
flow returning the lines printed, the file system, the engine calls and the
input not yet consumed. -/

/-- What one menu branch leaves behind. -/
structure ResultadoFlujo where
  salida : List String
  fs : SistemaArchivos
  llamadas : List Llamada
  resto : List String
deriving DecidableEq

/-- Branch `"1"` (lines 135-147): URL, quality choice, destination
(`input(...).strip() or "descargas_twitter"`), then `descargar_video`. -/
def flujo_uno (ydl : MotorYdl) (fs : SistemaArchivos) :
    List String → ResultadoFlujo
  | [] => ⟨["\nPega la URL del tweet: "], fs, [], []⟩
  | l :: rest =>
    let url := recortar l
    if es_url_valida url = false then
      ⟨["\nPega la URL del tweet: ",
        "  La URL no parece ser de Twitter/X. Intenta de nuevo."], fs, [], rest⟩
    else
      match rest with
      | [] =>
        ⟨["\nPega la URL del tweet: ",
          "\nCalidad: [1] Mejor  [2] 720p  [3] 480p  [4] 360p  [5] Peor",
          "Elige calidad (Enter = mejor): "], fs, [], []⟩
      | lc :: rest2 =>
        let calidad := calidades (recortar lc)
        match rest2 with
        | [] =>
          ⟨["\nPega la URL del tweet: ",
            "\nCalidad: [1] Mejor  [2] 720p  [3] 480p  [4] 360p  [5] Peor",
            "Elige calidad (Enter = mejor): ",
            "Carpeta destino (Enter = carpeta actual): "], fs, [], []⟩
        | lca :: rest3 =>
          let carpeta := if recortar lca = "" then "descargas_twitter" else recortar lca
          let r := descargar_video ydl fs url carpeta calidad
          ⟨["\nPega la URL del tweet: ",
            "\nCalidad: [1] Mejor  [2] 720p  [3] 480p  [4] 360p  [5] Peor",
            "Elige calidad (Enter = mejor): ",
            "Carpeta destino (Enter = carpeta actual): "] ++ r.salida,
           r.fs, r.llamadas, rest3⟩

/-- Branch `"2"` (lines 149-154): URL then `obtener_info`. -/
def flujo_dos (ydl : MotorYdl) (fs : SistemaArchivos) :
    List String → ResultadoFlujo
  | [] => ⟨["\nPega la URL del tweet: "], fs, [], []⟩
  | l :: rest =>
    let url := recortar l
    if es_url_valida url = false then
      ⟨["\nPega la URL del tweet: ", "  La URL no parece ser de Twitter/X."],
       fs, [], rest⟩
    else
      let r := obtener_info ydl url
      ⟨"\nPega la URL del tweet: " :: r.salida, fs, r.llamadas, rest⟩

/-- What the URL-collection loop of lines 158-166 leaves behind. -/
structure Recoleccion where
  urls : List String
  salida : List String
  resto : List String
deriving DecidableEq

/-- Lines 158-166: read lines until `'listo'` (case-insensitive, after
stripping), keep the valid URLs in order, print an inline notice for each
non-empty invalid line, and skip empty lines silently. -/
def recolectar : List String → Recoleccion
  | [] => ⟨[], ["> "], []⟩
  | l :: rest =>
    let url := recortar l
    if minusculas url = "listo" then ⟨[], ["> "], rest⟩
    else
      let r := recolectar rest
      if es_url_valida url then ⟨url :: r.urls, "> " :: r.salida, r.resto⟩
      else if url ≠ "" then
        ⟨r.urls, "> " :: "    URL inválida, omitida." :: r.salida, r.resto⟩
      else ⟨r.urls, "> " :: r.salida, r.resto⟩

/-- What the download loop of lines 174-176 leaves behind. -/
structure ResultadoLote where
  salida : List String
  fs : SistemaArchivos
  llamadas : List Llamada
deriving DecidableEq

/-- The progress marker `print(f"[{i}/{len(urls)}]", end=" ")` of line 175. -/
def marcador (i total : Nat) : String :=
  "[" ++ toString i ++ "/" ++ toString total ++ "] "

/-- Lines 174-176: `for i, url in enumerate(urls, 1)` — each URL is
downloaded with `descargar_video(url, carpeta)`, whose `calidad`
parameter keeps its default `"best"`. -/
def lote (ydl : MotorYdl) (carpeta : String) (total : Nat) :
    SistemaArchivos → List String → Nat → ResultadoLote
  | fs, [], _ => ⟨[], fs, []⟩
  | fs, u :: us, i =>
    let r := descargar_video ydl fs u carpeta
    let s := lote ydl carpeta total r.fs us (i + 1)
    ⟨marcador i total :: r.salida ++ s.salida, s.fs, r.llamadas ++ s.llamadas⟩

/-- Branch `"3"` (lines 156-176): collect the URLs, bail out when none are
valid, otherwise read the destination
(`input(...).strip() or "descargas_twitter"`) and run the batch loop. -/
def flujo_tres (ydl : MotorYdl) (fs : SistemaArchivos) (ent : List String) :
    ResultadoFlujo :=
  let instruccion := "\nIngresa las URLs (una por línea). Escribe 'listo' cuando termines:"
  let rc := recolectar ent
  if rc.urls.isEmpty then
    ⟨instruccion :: rc.salida ++ ["No se ingresaron URLs válidas."], fs, [], rc.resto⟩
  else
    match rc.resto with
    | [] =>
      ⟨instruccion :: rc.salida ++ ["Carpeta destino (Enter = 'descargas_twitter'): "],
       fs, [], []⟩
    | lc :: rest =>
      let carpeta := if recortar lc = "" then "descargas_twitter" else recortar lc
      let b := lote ydl carpeta rc.urls.length fs rc.urls 1
      ⟨instruccion :: rc.salida ++
        ["Carpeta destino (Enter = 'descargas_twitter'): ",
         "\nDescargando " ++ toString rc.urls.length ++ " videos...\n"] ++ b.salida,
       b.fs, b.llamadas, rest⟩

/-- What a whole session leaves behind. -/
structure ResultadoSesion where
  salida : List String
  fs : SistemaArchivos
  llamadas : List Llamada
deriving DecidableEq

/-- The menu block printed at the top of every iteration (lines 123-129). -/
def textoMenu : List String :=
  ["\n¿Qué deseas hacer?", "  [1] Descargar un video",
   "  [2] Ver información de un video", "  [3] Descargar varios videos (batch)",
   "  [0] Salir", "\nOpción: "]

/-- The `while True` loop of lines 122-179.  `fuel` bounds the number of
iterations; since every iteration consumes at least the option line, a fuel
of `ent.length` is never exhausted. -/
def menu_loop (ydl : MotorYdl) : Nat → List String → SistemaArchivos → ResultadoSesion
  | 0, _, fs => ⟨[], fs, []⟩
  | _ + 1, [], fs => ⟨textoMenu, fs, []⟩
  | fuel + 1, l :: rest, fs =>
    let opcion := recortar l
    if opcion = "0" then ⟨textoMenu ++ ["\n ¡Hasta luego!"], fs, []⟩
    else if opcion = "1" then
      let r := flujo_uno ydl fs rest
      let s := menu_loop ydl fuel r.resto r.fs
      ⟨textoMenu ++ r.salida ++ s.salida, s.fs, r.llamadas ++ s.llamadas⟩
    else if opcion = "2" then
      let r := flujo_dos ydl fs rest
      let s := menu_loop ydl fuel r.resto fs
      ⟨textoMenu ++ r.salida ++ s.salida, s.fs, r.llamadas ++ s.llamadas⟩
    else if opcion = "3" then
      let r := flujo_tres ydl fs rest
      let s := menu_loop ydl fuel r.resto r.fs
      ⟨textoMenu ++ r.salida ++ s.salida, s.fs, r.llamadas ++ s.llamadas⟩
    else
      let s := menu_loop ydl fuel rest fs
      ⟨textoMenu ++ ["Opción no válida."] ++ s.salida, s.fs, s.llamadas⟩

/-- `menu_interactivo()`: the banner of lines 117-120 then the loop. -/
def menu_interactivo (ydl : MotorYdl) (ent : List String) (fs : SistemaArchivos) :
    ResultadoSesion :=
  let r := menu_loop ydl ent.length ent fs
  ⟨[⟨List.replicate 55 '='⟩, "        Twitter/X Video Downloader ",
    ⟨List.replicate 55 '='⟩, ""] ++ r.salida, r.fs, r.llamadas⟩

/-- `main()` (lines 182-197): with command-line arguments beyond the program
name, a one-shot download (destination and quality default to
`"descargas_twitter"` and `"best"`) guarded by the validator; with none, the
interactive menu.  The `instalar_ytdlp()` bootstrap either succeeds silently
or aborts the process before anything below runs, so the embedding starts
after it. -/
def funcion_main (argv : List String) (ydl : MotorYdl) (ent : List String)
    (fs : SistemaArchivos) : ResultadoSesion :=
  if 1 < argv.length then
    let url := argv.getD 1 ""
    let carpeta := if 2 < argv.length then argv.getD 2 "" else "descargas_twitter"
    let calidad := if 3 < argv.length then argv.getD 3 "" else "best"
    if es_url_valida url then
      let r := descargar_video ydl fs url carpeta calidad
      ⟨r.salida, r.fs, r.llamadas⟩
    else
      ⟨["❌ URL inválida. Uso: python twitter_downloader.py <URL> [carpeta] [calidad]"],
       fs, []⟩
  else
    menu_interactivo ydl ent fs

/-! ## Basic facts about `descargar_video` -/

theorem descargar_video_fs (ydl : MotorYdl) (fs : SistemaArchivos)
    (url carpeta calidad : String) :
    (descargar_video ydl fs url carpeta calidad).fs = mkdirPadres fs carpeta := by
  unfold descargar_video
  cases h : ydl.extract url true with
  | ok info => rfl
  | error e => cases e <;> rfl

theorem descargar_video_llamadas (ydl : MotorYdl) (fs : SistemaArchivos)
    (url carpeta calidad : String) :
    (descargar_video ydl fs url carpeta calidad).llamadas =
      [⟨some (formatoDe calidad), some (unirRuta carpeta plantillaSalida), url, true⟩] := by
  unfold descargar_video
  cases h : ydl.extract url true with
  | ok info => rfl
  | error e => cases e <;> rfl

theorem descargar_video_salida_sin_fs (ydl : MotorYdl) (fs fs' : SistemaArchivos)
    (url carpeta calidad : String) :
    (descargar_video ydl fs url carpeta calidad).salida =
      (descargar_video ydl fs' url carpeta calidad).salida := by
  unfold descargar_video
  cases h : ydl.extract url true with
  | ok info => rfl
  | error e => cases e <;> rfl

theorem descargar_video_encabezado (ydl : MotorYdl) (fs : SistemaArchivos)
    (url carpeta calidad : String) :
    ("   Destino: " ++ carpeta) ∈ (descargar_video ydl fs url carpeta calidad).salida ∧
    ("   Calidad: " ++ calidad ++ "\n") ∈ (descargar_video ydl fs url carpeta calidad).salida := by
  unfold descargar_video
  cases h : ydl.extract url true with
  | ok info => simp
  | error e => cases e <;> simp

/-! ## Sample engines used as witnesses -/

/-- A sample metadata record. -/
def infoEjemplo : InfoVideo :=
  ⟨some "t", some "aut", some 10, some "20240101", [some 720, none, some 360, some 720, some 0]⟩

/-- An engine whose every call succeeds. -/
def motorOk : MotorYdl := ⟨fun _ _ => .ok infoEjemplo, fun _ => "video.mp4"⟩

/-- An engine whose every call raises `DownloadError`. -/
def motorFalloDescarga : MotorYdl :=
  ⟨fun _ _ => .error (.descargaError "privado"), fun _ => "video.mp4"⟩

/-- An engine whose every call raises some other `Exception`. -/
def motorFalloOtro : MotorYdl :=
  ⟨fun _ _ => .error (.otraExcepcion "boom"), fun _ => "video.mp4"⟩

/-! ## C6: the two quality maps -/

/-- C6: both quality maps are total with default `"best"`: the interactive
selector map sends `"1"`..`"5"` to `best/720/480/360/worst` and anything
else (the empty answer included) to `"best"`; the format-expression map
sends `best/worst/720/480/360` to their format strings and any other
selector to `"best"`. -/
theorem c6_mapas_calidad :
    calidades "1" = "best" ∧ calidades "2" = "720" ∧ calidades "3" = "480" ∧
    calidades "4" = "360" ∧ calidades "5" = "worst" ∧ calidades "" = "best" ∧
    (∀ s, s ≠ "1" → s ≠ "2" → s ≠ "3" → s ≠ "4" → s ≠ "5" → calidades s = "best") ∧
    formatoDe "best" = "best" ∧ formatoDe "worst" = "worst" ∧
    formatoDe "720" = "best[height<=720]" ∧ formatoDe "480" = "best[height<=480]" ∧
    formatoDe "360" = "best[height<=360]" ∧
    (∀ s, s ≠ "best" → s ≠ "worst" → s ≠ "720" → s ≠ "480" → s ≠ "360" →
      formatoDe s = "best") := by
  refine ⟨by decide, by decide, by decide, by decide, by decide, by decide, ?_,
    by decide, by decide, by decide, by decide, by decide, ?_⟩
  · intro s h1 h2 h3 h4 h5
    simp [calidades, h1, h2, h3, h4, h5]
  · intro s h1 h2 h3 h4 h5
    simp [formatoDe, h1, h2, h3, h4, h5]

theorem c6_testigo : calidades "9" = "best" ∧ formatoDe "1080" = "best" := by
  obtain ⟨-, -, -, -, -, -, h1, -, -, -, -, -, h2⟩ := c6_mapas_calidad
  exact ⟨h1 "9" (by decide) (by decide) (by decide) (by decide) (by decide),
         h2 "1080" (by decide) (by decide) (by decide) (by decide) (by decide)⟩

/-! ## C2: the three outcomes of `descargar_video` -/

/-- C2: when the engine call succeeds, `descargar_video` returns the
resolved file path (`prepare_filename`); on `DownloadError` it prints the
diagnostic with the likely-cause hint and returns `none`; on any other
exception it prints the generic diagnostic and returns `none`. -/
theorem c2_descarga_tres_salidas (ydl : MotorYdl) (fs : SistemaArchivos)
    (url carpeta calidad : String) :
    (∀ info, ydl.extract url true = Except.ok info →
      (descargar_video ydl fs url carpeta calidad).ret = some (ydl.preparaNombre info) ∧
      ("   Archivo: " ++ ydl.preparaNombre info) ∈
        (descargar_video ydl fs url carpeta calidad).salida) ∧
    (∀ e, ydl.extract url true = Except.error (.descargaError e) →
      (descargar_video ydl fs url carpeta calidad).ret = none ∧
      ("\n❌ Error al descargar: " ++ e) ∈
        (descargar_video ydl fs url carpeta calidad).salida ∧
      "   Asegúrate de que el tweet sea público y contenga un video." ∈
        (descargar_video ydl fs url carpeta calidad).salida) ∧
    (∀ e, ydl.extract url true = Except.error (.otraExcepcion e) →
      (descargar_video ydl fs url carpeta calidad).ret = none ∧
      ("\n❌ Error inesperado: " ++ e) ∈
        (descargar_video ydl fs url carpeta calidad).salida) := by
  refine ⟨?_, ?_, ?_⟩
  · intro info h
    unfold descargar_video
    rw [h]
    simp
  · intro e h
    unfold descargar_video
    rw [h]
    simp
  · intro e h
    unfold descargar_video
    rw [h]
    simp

theorem c2_testigo :
    (descargar_video motorOk [] "u" "d" "best").ret = some "video.mp4" ∧
    (descargar_video motorFalloDescarga [] "u" "d" "best").ret = none ∧
    (descargar_video motorFalloOtro [] "u" "d" "best").ret = none := by
  refine ⟨?_, ?_, ?_⟩
  · exact ((c2_descarga_tres_salidas motorOk [] "u" "d" "best").1 infoEjemplo rfl).1
  · exact ((c2_descarga_tres_salidas motorFalloDescarga [] "u" "d" "best").2.1 "privado" rfl).1
  · exact ((c2_descarga_tres_salidas motorFalloOtro [] "u" "d" "best").2.2 "boom" rfl).1

/-! ## C7: directory creation is idempotent -/

theorem insertaDir_de_mem {fs : SistemaArchivos} {d : String} (h : d ∈ fs) :
    insertaDir fs d = fs := if_pos h

theorem mem_insertaDir {fs : SistemaArchivos} {e : String} (d : String)
    (h : e ∈ fs) : e ∈ insertaDir fs d := by
  unfold insertaDir
  split
  · exact h
  · exact List.mem_append_left _ h

theorem mem_foldl_insertaDir {e : String} :
    ∀ (l : List String) (fs : SistemaArchivos), e ∈ fs → e ∈ l.foldl insertaDir fs := by
  intro l
  induction l with
  | nil => intro fs h; exact h
  | cons d ds ih => intro fs h; exact ih _ (mem_insertaDir d h)

theorem self_mem_insertaDir (fs : SistemaArchivos) (d : String) : d ∈ insertaDir fs d := by
  unfold insertaDir
  split
  · assumption
  · exact List.mem_append_right _ (by simp)

theorem mem_foldl_insertaDir_de_lista {e : String} :
    ∀ (l : List String) (fs : SistemaArchivos), e ∈ l → e ∈ l.foldl insertaDir fs := by
  intro l
  induction l with
  | nil => intro fs h; cases h
  | cons d ds ih =>
    intro fs h
    rcases List.mem_cons.1 h with rfl | h
    · rw [List.foldl_cons]
      exact mem_foldl_insertaDir ds _ (self_mem_insertaDir fs e)
    · rw [List.foldl_cons]
      exact ih _ h

theorem foldl_insertaDir_estable :
    ∀ (l : List String) (fs : SistemaArchivos), (∀ d ∈ l, d ∈ fs) →
      l.foldl insertaDir fs = fs := by
  intro l
  induction l with
  | nil => intro fs _; rfl
  | cons d ds ih =>
    intro fs h
    have hd : d ∈ fs := h d (by simp)
    simp only [List.foldl_cons, insertaDir_de_mem hd]
    exact ih fs (fun x hx => h x (by simp [hx]))

theorem mem_mkdirPadres (fs : SistemaArchivos) (p : String) :
    ∀ d ∈ ancestros p, d ∈ mkdirPadres fs p :=
  fun _ hd => mem_foldl_insertaDir_de_lista _ fs hd

theorem mkdirPadres_idem (fs : SistemaArchivos) (p : String) :
    mkdirPadres (mkdirPadres fs p) p = mkdirPadres fs p :=
  foldl_insertaDir_estable _ _ (mem_mkdirPadres fs p)

/-- C7: the destination creation of `descargar_video` is idempotent: one run
creates the destination and every missing parent, and a second run into the
same (now existing) destination leaves the file system exactly as it was —
`exist_ok=True` never fails on a pre-existing directory. -/
theorem c7_mkdir_idempotente (ydl : MotorYdl) (fs : SistemaArchivos)
    (url url2 carpeta calidad calidad2 : String) :
    (∀ d ∈ ancestros carpeta, d ∈ (descargar_video ydl fs url carpeta calidad).fs) ∧
    (descargar_video ydl (descargar_video ydl fs url carpeta calidad).fs
        url2 carpeta calidad2).fs =
      (descargar_video ydl fs url carpeta calidad).fs := by
  rw [descargar_video_fs, descargar_video_fs]
  exact ⟨mem_mkdirPadres fs carpeta, mkdirPadres_idem fs carpeta⟩

theorem c7_testigo :
    ("a" ∈ (descargar_video motorOk [] "u" "a/b" "best").fs) ∧
    (descargar_video motorOk (descargar_video motorOk [] "u" "a/b" "best").fs
        "u2" "a/b" "best").fs =
      (descargar_video motorOk [] "u" "a/b" "best").fs := by
  refine ⟨(c7_mkdir_idempotente motorOk [] "u" "u2" "a/b" "best" "best").1 "a" ?_,
    (c7_mkdir_idempotente motorOk [] "u" "u2" "a/b" "best" "best").2⟩
  decide

/-! ## C5: the one-shot CLI path of `main` -/

/-- With exactly one argument after the program name, `funcion_main` reduces
to a guarded one-shot download with the default destination and quality. -/
theorem funcion_main_un_arg (ydl : MotorYdl) (ent : List String)
    (fs : SistemaArchivos) (url : String) :
    funcion_main ["twitter_downloader.py", url] ydl ent fs =
      if es_url_valida url then
        ⟨(descargar_video ydl fs url "descargas_twitter" "best").salida,
         (descargar_video ydl fs url "descargas_twitter" "best").fs,
         (descargar_video ydl fs url "descargas_twitter" "best").llamadas⟩
      else
        ⟨["❌ URL inválida. Uso: python twitter_downloader.py <URL> [carpeta] [calidad]"],
         fs, []⟩ := rfl

/-- C5: a one-shot invocation with a single valid URL argument performs
exactly one download, into `"descargas_twitter"` with quality `"best"`;
with an invalid URL argument it performs zero engine calls, prints only the
usage diagnostic, and never reaches the interactive menu. -/
theorem c5_cli_una_pasada (ydl : MotorYdl) (ent : List String)
    (fs : SistemaArchivos) (url : String) :
    (es_url_valida url = true →
      (funcion_main ["twitter_downloader.py", url] ydl ent fs).llamadas =
        [⟨some "best", some (unirRuta "descargas_twitter" plantillaSalida), url, true⟩] ∧
      ("   Destino: " ++ "descargas_twitter") ∈
        (funcion_main ["twitter_downloader.py", url] ydl ent fs).salida ∧
      ("   Calidad: " ++ "best" ++ "\n") ∈
        (funcion_main ["twitter_downloader.py", url] ydl ent fs).salida) ∧
    (es_url_valida url = false →
      funcion_main ["twitter_downloader.py", url] ydl ent fs =
        ⟨["❌ URL inválida. Uso: python twitter_downloader.py <URL> [carpeta] [calidad]"],
         fs, []⟩) := by
  constructor
  · intro h
    rw [funcion_main_un_arg, if_pos h]
    refine ⟨?_, (descargar_video_encabezado ydl fs url "descargas_twitter" "best").1,
      (descargar_video_encabezado ydl fs url "descargas_twitter" "best").2⟩
    rw [descargar_video_llamadas]
    rfl
  · intro h
    rw [funcion_main_un_arg, if_neg]
    simp [h]

theorem c5_testigo :
    (funcion_main ["twitter_downloader.py", "https://x.com/a/status/1"]
        motorOk [] []).llamadas =
      [⟨some "best", some (unirRuta "descargas_twitter" plantillaSalida),
        "https://x.com/a/status/1", true⟩] ∧
    funcion_main ["twitter_downloader.py", "https://example.com/status/1"]
        motorOk [] [] =
      ⟨["❌ URL inválida. Uso: python twitter_downloader.py <URL> [carpeta] [calidad]"],
       [], []⟩ :=
  ⟨((c5_cli_una_pasada motorOk [] [] "https://x.com/a/status/1").1 (by decide)).1,
   (c5_cli_una_pasada motorOk [] [] "https://example.com/status/1").2 (by decide)⟩

/-! ## C10: the destination default of the single-download flow -/

/-- C10: in the interactive single-download flow, an answer to the
destination prompt that strips to the empty string makes the download use
`"descargas_twitter"` — not the current working directory the prompt text
suggests — while a non-empty answer is used verbatim after stripping. -/
theorem c10_carpeta_defecto (ydl : MotorYdl) (fs : SistemaArchivos)
    (lurl lcal lcar : String) (resto : List String)
    (hval : es_url_valida (recortar lurl) = true) :
    (recortar lcar = "" →
      (flujo_uno ydl fs (lurl :: lcal :: lcar :: resto)).llamadas =
        [⟨some (formatoDe (calidades (recortar lcal))),
          some (unirRuta "descargas_twitter" plantillaSalida), recortar lurl, true⟩]) ∧
    (recortar lcar ≠ "" →
      (flujo_uno ydl fs (lurl :: lcal :: lcar :: resto)).llamadas =
        [⟨some (formatoDe (calidades (recortar lcal))),
          some (unirRuta (recortar lcar) plantillaSalida), recortar lurl, true⟩]) := by
  constructor
  · intro hc
    simp [flujo_uno, hval, hc, descargar_video_llamadas]
  · intro hc
    simp [flujo_uno, hval, hc, descargar_video_llamadas]

theorem c10_testigo :
    (flujo_uno motorOk [] ["https://x.com/a/status/1", "", "  "]).llamadas =
      [⟨some "best", some "descargas_twitter/%(uploader)s_%(id)s.%(ext)s",
        "https://x.com/a/status/1", true⟩] := by
  have h := (c10_carpeta_defecto motorOk [] "https://x.com/a/status/1" "" "  " []
    (by decide)).1 (by decide)
  rw [h]
  decide

/-! ## C8: the info operation -/

theorem pairwise_gt_de_sorted_nodup :
    ∀ {l : List Nat}, l.Sorted (· ≥ ·) → l.Nodup → l.Pairwise (· > ·) := by
  intro l
  induction l with
  | nil => intro _ _; exact List.Pairwise.nil
  | cons a tl ih =>
    intro hs hn
    obtain ⟨h1, hs'⟩ := List.pairwise_cons.1 hs
    obtain ⟨h2, hn'⟩ := List.pairwise_cons.1 hn
    exact List.pairwise_cons.2
      ⟨fun b hb => lt_of_le_of_ne (h1 b hb) (Ne.symm (h2 b hb)), ih hs' hn'⟩

theorem ordenaDesc_alturas_estricta (info : InfoVideo) :
    (ordenaDesc (alturasDe info)).Pairwise (· > ·) := by
  refine pairwise_gt_de_sorted_nodup (List.sorted_insertionSort _ _) ?_
  exact ((List.perm_insertionSort _ _).nodup_iff).2 (List.nodup_dedup _)

theorem mem_ordenaDesc_alturas (info : InfoVideo) (h : Nat) :
    h ∈ ordenaDesc (alturasDe info) ↔ some h ∈ info.formats ∧ h ≠ 0 := by
  unfold ordenaDesc alturasDe
  rw [List.mem_insertionSort, List.mem_dedup, List.mem_filter, List.mem_filterMap]
  simp only [id_eq, decide_eq_true_eq, exists_eq_right]

/-- C8: `obtener_info` calls the engine exactly once with download disabled;
on success it prints title, author, duration and upload date, and — when any
format carries a truthy height — the distinct vertical resolutions in
strictly descending order, each suffixed `"p"`; any exception is caught and
reported as a generic diagnostic. -/
theorem c8_info_operacion (ydl : MotorYdl) (url : String) :
    (obtener_info ydl url).llamadas = [⟨none, none, url, false⟩] ∧
    (∀ info, ydl.extract url false = Except.ok info →
      (ordenaDesc (alturasDe info)).Pairwise (· > ·) ∧
      (∀ h, h ∈ ordenaDesc (alturasDe info) ↔ some h ∈ info.formats ∧ h ≠ 0) ∧
      ("   Título:    " ++ info.title.getD "N/A") ∈ (obtener_info ydl url).salida ∧
      ("   Usuario:   " ++ info.uploader.getD "N/A") ∈ (obtener_info ydl url).salida ∧
      ("   Duración:  " ++ textoDuracion info.duration ++ " segundos") ∈
        (obtener_info ydl url).salida ∧
      ("   Fecha:     " ++ info.upload_date.getD "N/A") ∈ (obtener_info ydl url).salida ∧
      (alturasDe info ≠ [] →
        ("   Calidades: " ++ String.intercalate ", "
            ((ordenaDesc (alturasDe info)).map (fun h => toString h ++ "p"))) ∈
          (obtener_info ydl url).salida)) ∧
    (∀ e, ydl.extract url false = Except.error e →
      ("❌ No se pudo obtener información: " ++ mensajeDe e) ∈
        (obtener_info ydl url).salida) := by
  refine ⟨?_, ?_, ?_⟩
  · unfold obtener_info
    cases h : ydl.extract url false with
    | ok info => rfl
    | error e => rfl
  · intro info h
    refine ⟨ordenaDesc_alturas_estricta info, mem_ordenaDesc_alturas info, ?_⟩
    unfold obtener_info
    rw [h]
    have hres : alturasDe info ≠ [] → (ordenaDesc (alturasDe info)).isEmpty = false := by
      intro hne
      rcases hie : (ordenaDesc (alturasDe info)).isEmpty with _ | _
      · rfl
      · exfalso
        apply hne
        have : ordenaDesc (alturasDe info) = [] := List.isEmpty_iff.1 hie
        have hp := List.perm_insertionSort (α := Nat) (· ≥ ·) (alturasDe info)
        rw [ordenaDesc] at this
        rw [this] at hp
        exact hp.symm.eq_nil
    constructor
    · simp
    constructor
    · simp
    constructor
    · simp
    constructor
    · simp
    · intro hne
      simp [hres hne]
  · intro e h
    unfold obtener_info
    rw [h]
    simp

theorem c8_testigo :
    (ordenaDesc (alturasDe infoEjemplo)).Pairwise (· > ·) ∧
    (720 ∈ ordenaDesc (alturasDe infoEjemplo) ↔
      some 720 ∈ infoEjemplo.formats ∧ 720 ≠ 0) ∧
    ("❌ No se pudo obtener información: " ++
        mensajeDe (ExcepcionPy.otraExcepcion "boom")) ∈
      (obtener_info motorFalloOtro "u").salida :=
  ⟨((c8_info_operacion motorOk "u").2.1 infoEjemplo rfl).1,
   ((c8_info_operacion motorOk "u").2.1 infoEjemplo rfl).2.1 720,
   (c8_info_operacion motorFalloOtro "u").2.2 (.otraExcepcion "boom") rfl⟩

/-! ## C4: batch mode -/

/-- The collection loop on a script `lineas ++ cent :: resto` whose first
sentinel line is `cent`: it keeps exactly the valid stripped lines in order,
leaves `resto` unread, and prints one inline notice per stripped line that is
non-empty and invalid. -/
theorem recolectar_con_centinela (lineas : List String) (cent : String)
    (resto : List String)
    (hns : ∀ l ∈ lineas, minusculas (recortar l) ≠ "listo")
    (hcent : minusculas (recortar cent) = "listo") :
    (recolectar (lineas ++ cent :: resto)).urls =
      (lineas.map recortar).filter es_url_valida ∧
    (recolectar (lineas ++ cent :: resto)).resto = resto ∧
    (recolectar (lineas ++ cent :: resto)).salida.count "    URL inválida, omitida." =
      ((lineas.map recortar).filter
        (fun u => !es_url_valida u && u != "")).length := by
  have hpr : (("> " : String) == "    URL inválida, omitida.") = false := by decide
  have hav : (("    URL inválida, omitida." : String) ==
      "    URL inválida, omitida.") = true := by decide
  have hvacia : es_url_valida "" = false := by decide
  induction lineas with
  | nil =>
    have hU : recolectar (cent :: resto) = ⟨[], ["> "], resto⟩ := by
      simp [recolectar, hcent]
    rw [List.nil_append, hU]
    refine ⟨rfl, rfl, ?_⟩
    simp [List.count_cons, hpr]
  | cons l ls ih =>
    have hl : minusculas (recortar l) ≠ "listo" := hns l (by simp)
    obtain ⟨ih1, ih2, ih3⟩ := ih (fun x hx => hns x (by simp [hx]))
    simp only [List.cons_append, recolectar, if_neg hl, List.map_cons]
    rcases hv : es_url_valida (recortar l) with _ | _
    · by_cases he : recortar l = ""
      · refine ⟨?_, ?_, ?_⟩ <;>
          simp [hv, he, ih1, ih2, ih3, List.count_cons, List.filter_cons, hpr, hav, hvacia]
      · refine ⟨?_, ?_, ?_⟩ <;>
          simp [hv, he, ih1, ih2, ih3, List.count_cons, List.filter_cons, hpr, hav]
    · refine ⟨?_, ?_, ?_⟩ <;>
        simp [hv, ih1, ih2, ih3, List.count_cons, List.filter_cons, hpr, hav]

/-- Every engine call of the batch loop carries the format selected for the
default quality `"best"` and the shared destination, one call per URL in
order. -/
theorem lote_llamadas (ydl : MotorYdl) (carpeta : String) (total : Nat) :
    ∀ (urls : List String) (fs : SistemaArchivos) (i : Nat),
      (lote ydl carpeta total fs urls i).llamadas =
        urls.map (fun u => ⟨some (formatoDe "best"),
          some (unirRuta carpeta plantillaSalida), u, true⟩) := by
  intro urls
  induction urls with
  | nil => intro fs i; rfl
  | cons u us ih =>
    intro fs i
    simp only [lote, descargar_video_llamadas, ih, List.map_cons, List.cons_append,
      List.nil_append]

/-- Every position of the batch loop is announced with its `[i/total]`
progress marker. -/
theorem lote_marcadores (ydl : MotorYdl) (carpeta : String) (total : Nat) :
    ∀ (urls : List String) (fs : SistemaArchivos) (i j : Nat), j < urls.length →
      marcador (i + j) total ∈ (lote ydl carpeta total fs urls i).salida := by
  intro urls
  induction urls with
  | nil => intro fs i j h; cases h
  | cons u us ih =>
    intro fs i j h
    cases j with
    | zero =>
      simp only [Nat.add_zero, lote]
      exact List.mem_cons_self _ _
    | succ j' =>
      have hj : j' < us.length := by
        simpa [Nat.succ_lt_succ_iff] using h
      have hm := ih (descargar_video ydl fs u carpeta).fs (i + 1) j' hj
      have harith : i + (j' + 1) = (i + 1) + j' := by omega
      rw [harith]
      simp only [lote]
      exact List.mem_cons_of_mem _ (List.mem_append_right _ hm)

/-- C4 (counterexample): the whitespace-only line `" "` fails URL validation,
yet the collection loop of batch mode skips it silently — no
`"    URL inválida, omitida."` notice is printed for it, refuting "every
invalid URL produces an inline omitted notice". -/
theorem c4_contraejemplo :
    es_url_valida (recortar " ") = false ∧
    (recolectar [" ", "listo"]).urls = [] ∧
    (recolectar [" ", "listo"]).salida.count "    URL inválida, omitida." = 0 := by
  decide

/-- `flujo_tres` when at least one URL was collected and a destination line
remains: it reads the destination and hands everything to the batch loop. -/
theorem flujo_tres_con_dest (ydl : MotorYdl) (fs : SistemaArchivos)
    (ent : List String) (lc : String) (rest : List String)
    (hne : (recolectar ent).urls ≠ [])
    (hresto : (recolectar ent).resto = lc :: rest) :
    flujo_tres ydl fs ent =
      ⟨"\nIngresa las URLs (una por línea). Escribe 'listo' cuando termines:" ::
         (recolectar ent).salida ++
         ["Carpeta destino (Enter = 'descargas_twitter'): ",
          "\nDescargando " ++ toString (recolectar ent).urls.length ++ " videos...\n"] ++
         (lote ydl (if recortar lc = "" then "descargas_twitter" else recortar lc)
           (recolectar ent).urls.length fs (recolectar ent).urls 1).salida,
       (lote ydl (if recortar lc = "" then "descargas_twitter" else recortar lc)
         (recolectar ent).urls.length fs (recolectar ent).urls 1).fs,
       (lote ydl (if recortar lc = "" then "descargas_twitter" else recortar lc)
         (recolectar ent).urls.length fs (recolectar ent).urls 1).llamadas,
       rest⟩ := by
  have hie : (recolectar ent).urls.isEmpty = false := by
    rcases hx : (recolectar ent).urls.isEmpty with _ | _
    · rfl
    · exact absurd (List.isEmpty_iff.1 hx) hne
  simp [flujo_tres, hie, hresto]

/-- C4 (amended): for a batch script of lines followed by the first sentinel
line (`"listo"` case-insensitively after stripping), a destination answer
and trailing input: exactly the stripped lines that pass URL validation are
downloaded — one engine call per valid URL, in original order, each position
announced by its `[i/total]` marker — while each invalid line that is
non-empty after stripping produces one inline omitted notice and no
download; lines that strip to the empty string are skipped silently. -/
theorem c4_lote_enmendado (ydl : MotorYdl) (fs : SistemaArchivos)
    (lineas : List String) (cent lcar : String) (resto : List String)
    (hns : ∀ l ∈ lineas, minusculas (recortar l) ≠ "listo")
    (hcent : minusculas (recortar cent) = "listo") :
    (recolectar (lineas ++ cent :: lcar :: resto)).urls =
      (lineas.map recortar).filter es_url_valida ∧
    (recolectar (lineas ++ cent :: lcar :: resto)).salida.count
        "    URL inválida, omitida." =
      ((lineas.map recortar).filter
        (fun u => !es_url_valida u && u != "")).length ∧
    (flujo_tres ydl fs (lineas ++ cent :: lcar :: resto)).llamadas =
      ((lineas.map recortar).filter es_url_valida).map
        (fun u => ⟨some "best",
          some (unirRuta
            (if recortar lcar = "" then "descargas_twitter" else recortar lcar)
            plantillaSalida), u, true⟩) ∧
    ((lineas.map recortar).filter es_url_valida ≠ [] →
      (flujo_tres ydl fs (lineas ++ cent :: lcar :: resto)).resto = resto) ∧
    (∀ j, j < ((lineas.map recortar).filter es_url_valida).length →
      marcador (1 + j) ((lineas.map recortar).filter es_url_valida).length ∈
        (flujo_tres ydl fs (lineas ++ cent :: lcar :: resto)).salida) := by
  obtain ⟨hu, hr, hc⟩ :=
    recolectar_con_centinela lineas cent (lcar :: resto) hns hcent
  by_cases hF : (lineas.map recortar).filter es_url_valida = []
  · have hie : (recolectar (lineas ++ cent :: lcar :: resto)).urls.isEmpty = true := by
      rw [hu, hF]; rfl
    refine ⟨hu, hc, ?_, fun hne => absurd hF hne, ?_⟩
    · simp [flujo_tres, hie, hF]
    · intro j hj
      rw [hF] at hj
      cases hj
  · have hne : (recolectar (lineas ++ cent :: lcar :: resto)).urls ≠ [] := by
      rw [hu]; exact hF
    have heq := flujo_tres_con_dest ydl fs (lineas ++ cent :: lcar :: resto)
      lcar resto hne hr
    refine ⟨hu, hc, ?_, fun _ => by rw [heq], ?_⟩
    · rw [heq]
      show (lote ydl _ _ fs (recolectar (lineas ++ cent :: lcar :: resto)).urls 1).llamadas = _
      rw [lote_llamadas, hu]
      rfl
    · intro j hj
      rw [heq]
      have hm := lote_marcadores ydl
        (if recortar lcar = "" then "descargas_twitter" else recortar lcar)
        (recolectar (lineas ++ cent :: lcar :: resto)).urls.length
        (recolectar (lineas ++ cent :: lcar :: resto)).urls fs 1 j
        (by rw [hu]; exact hj)
      rw [hu] at hm
      show marcador (1 + j) _ ∈ _ :: _ ++ _ ++ _
      refine List.mem_cons_of_mem _ (List.mem_append_right _ ?_)
      rw [hu]
      exact hm

theorem c4_testigo :
    (flujo_tres motorOk []
        (["https://x.com/a/status/1", "nope", "https://twitter.com/b/status/2"] ++
          "LISTO" :: "" :: ["x"])).llamadas =
      [⟨some "best", some "descargas_twitter/%(uploader)s_%(id)s.%(ext)s",
        "https://x.com/a/status/1", true⟩,
       ⟨some "best", some "descargas_twitter/%(uploader)s_%(id)s.%(ext)s",
        "https://twitter.com/b/status/2", true⟩] ∧
    (recolectar (["https://x.com/a/status/1", "nope",
        "https://twitter.com/b/status/2"] ++ "LISTO" :: "" :: ["x"])).salida.count
      "    URL inválida, omitida." = 1 := by
  obtain ⟨-, h2, h3, -, -⟩ := c4_lote_enmendado motorOk []
    ["https://x.com/a/status/1", "nope", "https://twitter.com/b/status/2"]
    "LISTO" "" ["x"] (by decide) (by decide)
  refine ⟨?_, ?_⟩
  · rw [h3]; decide
  · rw [h2]; decide

/-! ## C9: batch downloads always use the default quality -/

/-- C9: the batch flow never reads a quality answer and invokes
`descargar_video(url, carpeta)` with the parameter default, so every engine
call it records carries the format selected for `"best"`, whatever quality
was typed elsewhere in the session. -/
theorem c9_lote_siempre_best (ydl : MotorYdl) (fs : SistemaArchivos)
    (ent : List String) :
    ∀ lla ∈ (flujo_tres ydl fs ent).llamadas, lla.formato = some "best" := by
  intro lla hmem
  rcases hie : (recolectar ent).urls.isEmpty with _ | _
  · rcases hresto : (recolectar ent).resto with _ | ⟨lc, rest⟩
    · unfold flujo_tres at hmem
      simp [hie, hresto] at hmem
    · have hne : (recolectar ent).urls ≠ [] := by
        intro h0
        rw [h0] at hie
        cases hie
      rw [flujo_tres_con_dest ydl fs ent lc rest hne hresto] at hmem
      simp only [lote_llamadas, List.mem_map] at hmem
      obtain ⟨u, -, rfl⟩ := hmem
      rfl
  · unfold flujo_tres at hmem
    simp [hie] at hmem

theorem c9_testigo :
    (Llamada.mk (some "best") (some "descargas_twitter/%(uploader)s_%(id)s.%(ext)s")
      "https://x.com/a/status/1" true).formato = some "best" :=
  c9_lote_siempre_best motorOk [] ["https://x.com/a/status/1", "listo", ""] _ (by decide)

/-! ## C3: which exceptions can abort the interactive loop

Each operation catches every engine exception, so which downloads run, how
the file system ends up, and how much input is consumed are all independent
of the engine's outcomes.  But the claim says more: that NO exception from a
download or info operation can abort the loop.  That is false of the source:
`Path(carpeta_destino).mkdir(parents=True, exist_ok=True)` at line 44 runs
outside the `try:` of line 68, and `exist_ok=True` only suppresses the error
for an existing directory — when the destination (or one of its ancestors)
names an existing regular file, `mkdir` raises an `OSError` that propagates
through `descargar_video` and kills the loop.  The refined `..._exc` layer
below makes that path visible: the environment also carries the regular
files present (`archivos`), directory creation returns `Except`, and only
the engine call sits inside the handled region.  When every creation
succeeds, a run is exactly the total model above; an exceptional result
carries just the escaping exception (the process dies with a traceback, so
no further prints of the session are observable). -/

/-- `Path(p).mkdir(parents=True, exist_ok=True)` refined: walking the
ancestors outermost-first, a component that exists as a regular file raises
`FileExistsError` (modelled message); otherwise every missing directory is
created as in `mkdirPadres`. -/
def mkdirPadresExc (archivos : List String) (fs : SistemaArchivos)
    (p : String) : Except ExcepcionPy SistemaArchivos :=
  match (ancestros p).find? (fun d => archivos.contains d) with
  | some d => .error (.otraExcepcion ("[Errno 17] File exists: " ++ d))
  | none => .ok (mkdirPadres fs p)

/-- `descargar_video` with the creation failure of line 44 visible: the
`mkdir` call precedes the `try:` of line 68 (and every print), so its
exception propagates; when it succeeds, lines 46-81 behave exactly as
`descargar_video`, whose recorded file system is the one the creation
produced. -/
def descargar_video_exc (ydl : MotorYdl) (archivos : List String)
    (fs : SistemaArchivos) (url : String) (carpeta : String := ".")
    (calidad : String := "best") : Except ExcepcionPy ResultadoDescarga :=
  match mkdirPadresExc archivos fs carpeta with
  | .error e => .error e
  | .ok _ => .ok (descargar_video ydl fs url carpeta calidad)

/-- Branch `"1"` of the loop over the refined download operation. -/
def flujo_uno_exc (ydl : MotorYdl) (archivos : List String)
    (fs : SistemaArchivos) : List String → Except ExcepcionPy ResultadoFlujo
  | [] => .ok ⟨["\nPega la URL del tweet: "], fs, [], []⟩
  | l :: rest =>
    let url := recortar l
    if es_url_valida url = false then
      .ok ⟨["\nPega la URL del tweet: ",
        "  La URL no parece ser de Twitter/X. Intenta de nuevo."], fs, [], rest⟩
    else
      match rest with
      | [] =>
        .ok ⟨["\nPega la URL del tweet: ",
          "\nCalidad: [1] Mejor  [2] 720p  [3] 480p  [4] 360p  [5] Peor",
          "Elige calidad (Enter = mejor): "], fs, [], []⟩
      | lc :: rest2 =>
        let calidad := calidades (recortar lc)
        match rest2 with
        | [] =>
          .ok ⟨["\nPega la URL del tweet: ",
            "\nCalidad: [1] Mejor  [2] 720p  [3] 480p  [4] 360p  [5] Peor",
            "Elige calidad (Enter = mejor): ",
            "Carpeta destino (Enter = carpeta actual): "], fs, [], []⟩
        | lca :: rest3 =>
          let carpeta := if recortar lca = "" then "descargas_twitter" else recortar lca
          match descargar_video_exc ydl archivos fs url carpeta calidad with
          | .error e => .error e
          | .ok r =>
            .ok ⟨["\nPega la URL del tweet: ",
              "\nCalidad: [1] Mejor  [2] 720p  [3] 480p  [4] 360p  [5] Peor",
              "Elige calidad (Enter = mejor): ",
              "Carpeta destino (Enter = carpeta actual): "] ++ r.salida,
             r.fs, r.llamadas, rest3⟩

/-- The batch loop over the refined download operation: the first creation
failure aborts the remaining iterations. -/
def lote_exc (ydl : MotorYdl) (archivos : List String) (carpeta : String)
    (total : Nat) :
    SistemaArchivos → List String → Nat → Except ExcepcionPy ResultadoLote
  | fs, [], _ => .ok ⟨[], fs, []⟩
  | fs, u :: us, i =>
    match descargar_video_exc ydl archivos fs u carpeta with
    | .error e => .error e
    | .ok r =>
      match lote_exc ydl archivos carpeta total r.fs us (i + 1) with
      | .error e => .error e
      | .ok s =>
        .ok ⟨marcador i total :: r.salida ++ s.salida, s.fs, r.llamadas ++ s.llamadas⟩

/-- Branch `"3"` of the loop over the refined batch loop. -/
def flujo_tres_exc (ydl : MotorYdl) (archivos : List String)
    (fs : SistemaArchivos) (ent : List String) :
    Except ExcepcionPy ResultadoFlujo :=
  let instruccion := "\nIngresa las URLs (una por línea). Escribe 'listo' cuando termines:"
  let rc := recolectar ent
  if rc.urls.isEmpty then
    .ok ⟨instruccion :: rc.salida ++ ["No se ingresaron URLs válidas."], fs, [], rc.resto⟩
  else
    match rc.resto with
    | [] =>
      .ok ⟨instruccion :: rc.salida ++
        ["Carpeta destino (Enter = 'descargas_twitter'): "], fs, [], []⟩
    | lc :: rest =>
      let carpeta := if recortar lc = "" then "descargas_twitter" else recortar lc
      match lote_exc ydl archivos carpeta rc.urls.length fs rc.urls 1 with
      | .error e => .error e
      | .ok b =>
        .ok ⟨instruccion :: rc.salida ++
          ["Carpeta destino (Enter = 'descargas_twitter'): ",
           "\nDescargando " ++ toString rc.urls.length ++ " videos...\n"] ++ b.salida,
         b.fs, b.llamadas, rest⟩

/-- The `while True` loop of lines 122-179 over the refined operations:
an exception escaping a branch ends the whole session (`.error`).  The info
branch stays total — everything fallible in `obtener_info` sits inside its
`try:`. -/
def menu_loop_exc (ydl : MotorYdl) (archivos : List String) :
    Nat → List String → SistemaArchivos → Except ExcepcionPy ResultadoSesion
  | 0, _, fs => .ok ⟨[], fs, []⟩
  | _ + 1, [], fs => .ok ⟨textoMenu, fs, []⟩
  | fuel + 1, l :: rest, fs =>
    let opcion := recortar l
    if opcion = "0" then .ok ⟨textoMenu ++ ["\n ¡Hasta luego!"], fs, []⟩
    else if opcion = "1" then
      match flujo_uno_exc ydl archivos fs rest with
      | .error e => .error e
      | .ok r =>
        match menu_loop_exc ydl archivos fuel r.resto r.fs with
        | .error e => .error e
        | .ok s => .ok ⟨textoMenu ++ r.salida ++ s.salida, s.fs, r.llamadas ++ s.llamadas⟩
    else if opcion = "2" then
      let r := flujo_dos ydl fs rest
      match menu_loop_exc ydl archivos fuel r.resto fs with
      | .error e => .error e
      | .ok s => .ok ⟨textoMenu ++ r.salida ++ s.salida, s.fs, r.llamadas ++ s.llamadas⟩
    else if opcion = "3" then
      match flujo_tres_exc ydl archivos fs rest with
      | .error e => .error e
      | .ok r =>
        match menu_loop_exc ydl archivos fuel r.resto r.fs with
        | .error e => .error e
        | .ok s => .ok ⟨textoMenu ++ r.salida ++ s.salida, s.fs, r.llamadas ++ s.llamadas⟩
    else
      match menu_loop_exc ydl archivos fuel rest fs with
      | .error e => .error e
      | .ok s => .ok ⟨textoMenu ++ ["Opción no válida."] ++ s.salida, s.fs, s.llamadas⟩

theorem obtener_info_llamadas (ydl : MotorYdl) (url : String) :
    (obtener_info ydl url).llamadas = [⟨none, none, url, false⟩] := by
  unfold obtener_info
  cases h : ydl.extract url false with
  | ok info => rfl
  | error e => rfl

theorem flujo_uno_indep (ydl ydl' : MotorYdl) (fs : SistemaArchivos) :
    ∀ ent : List String,
      (flujo_uno ydl fs ent).llamadas = (flujo_uno ydl' fs ent).llamadas ∧
      (flujo_uno ydl fs ent).fs = (flujo_uno ydl' fs ent).fs ∧
      (flujo_uno ydl fs ent).resto = (flujo_uno ydl' fs ent).resto := by
  intro ent
  rcases ent with _ | ⟨l, _ | ⟨lc, _ | ⟨lca, rest3⟩⟩⟩
  · exact ⟨rfl, rfl, rfl⟩
  · rcases hv : es_url_valida (recortar l) with _ | _
    · simp [flujo_uno, hv]
    · simp [flujo_uno, hv]
  · rcases hv : es_url_valida (recortar l) with _ | _
    · simp [flujo_uno, hv]
    · simp [flujo_uno, hv]
  · rcases hv : es_url_valida (recortar l) with _ | _
    · simp [flujo_uno, hv]
    · simp [flujo_uno, hv, descargar_video_llamadas, descargar_video_fs]

theorem flujo_dos_indep (ydl ydl' : MotorYdl) (fs : SistemaArchivos) :
    ∀ ent : List String,
      (flujo_dos ydl fs ent).llamadas = (flujo_dos ydl' fs ent).llamadas ∧
      (flujo_dos ydl fs ent).fs = (flujo_dos ydl' fs ent).fs ∧
      (flujo_dos ydl fs ent).resto = (flujo_dos ydl' fs ent).resto := by
  intro ent
  rcases ent with _ | ⟨l, rest⟩
  · exact ⟨rfl, rfl, rfl⟩
  · rcases hv : es_url_valida (recortar l) with _ | _
    · simp [flujo_dos, hv]
    · simp [flujo_dos, hv, obtener_info_llamadas]

theorem lote_indep (ydl ydl' : MotorYdl) (carpeta : String) (total : Nat) :
    ∀ (urls : List String) (fs : SistemaArchivos) (i : Nat),
      (lote ydl carpeta total fs urls i).llamadas =
        (lote ydl' carpeta total fs urls i).llamadas ∧
      (lote ydl carpeta total fs urls i).fs =
        (lote ydl' carpeta total fs urls i).fs := by
  intro urls
  induction urls with
  | nil => intro fs i; exact ⟨rfl, rfl⟩
  | cons u us ih =>
    intro fs i
    obtain ⟨ih1, ih2⟩ := ih (mkdirPadres fs carpeta) (i + 1)
    constructor
    · simp only [lote, descargar_video_llamadas, descargar_video_fs]
      rw [ih1]
    · simp only [lote, descargar_video_fs]
      rw [ih2]

theorem flujo_tres_indep (ydl ydl' : MotorYdl) (fs : SistemaArchivos)
    (ent : List String) :
    (flujo_tres ydl fs ent).llamadas = (flujo_tres ydl' fs ent).llamadas ∧
    (flujo_tres ydl fs ent).fs = (flujo_tres ydl' fs ent).fs ∧
    (flujo_tres ydl fs ent).resto = (flujo_tres ydl' fs ent).resto := by
  rcases hie : (recolectar ent).urls.isEmpty with _ | _
  · rcases hresto : (recolectar ent).resto with _ | ⟨lc, rest⟩
    · simp [flujo_tres, hie, hresto]
    · have hne : (recolectar ent).urls ≠ [] := fun h0 => by
        rw [h0] at hie; cases hie
      rw [flujo_tres_con_dest ydl fs ent lc rest hne hresto,
          flujo_tres_con_dest ydl' fs ent lc rest hne hresto]
      obtain ⟨h1, h2⟩ := lote_indep ydl ydl'
        (if recortar lc = "" then "descargas_twitter" else recortar lc)
        (recolectar ent).urls.length (recolectar ent).urls fs 1
      exact ⟨h1, h2, rfl⟩
  · simp [flujo_tres, hie]

theorem menu_loop_indep (ydl ydl' : MotorYdl) :
    ∀ (fuel : Nat) (ent : List String) (fs : SistemaArchivos),
      (menu_loop ydl fuel ent fs).llamadas = (menu_loop ydl' fuel ent fs).llamadas ∧
      (menu_loop ydl fuel ent fs).fs = (menu_loop ydl' fuel ent fs).fs := by
  intro fuel
  induction fuel with
  | zero => intro ent fs; exact ⟨rfl, rfl⟩
  | succ n ih =>
    intro ent fs
    rcases ent with _ | ⟨l, rest⟩
    · exact ⟨rfl, rfl⟩
    · by_cases h0 : recortar l = "0"
      · simp [menu_loop, h0]
      · by_cases h1 : recortar l = "1"
        · obtain ⟨a1, a2, a3⟩ := flujo_uno_indep ydl ydl' fs rest
          obtain ⟨b1, b2⟩ := ih (flujo_uno ydl' fs rest).resto (flujo_uno ydl' fs rest).fs
          simp only [menu_loop, if_neg h0, if_pos h1]
          refine ⟨?_, ?_⟩
          · rw [a1, a2, a3, b1]
          · rw [a2, a3, b2]
        · by_cases h2 : recortar l = "2"
          · obtain ⟨a1, a2, a3⟩ := flujo_dos_indep ydl ydl' fs rest
            obtain ⟨b1, b2⟩ := ih (flujo_dos ydl' fs rest).resto fs
            simp only [menu_loop, if_neg h0, if_neg h1, if_pos h2]
            refine ⟨?_, ?_⟩
            · rw [a1, a3, b1]
            · rw [a3, b2]
          · by_cases h3 : recortar l = "3"
            · obtain ⟨a1, a2, a3⟩ := flujo_tres_indep ydl ydl' fs rest
              obtain ⟨b1, b2⟩ := ih (flujo_tres ydl' fs rest).resto (flujo_tres ydl' fs rest).fs
              simp only [menu_loop, if_neg h0, if_neg h1, if_neg h2, if_pos h3]
              refine ⟨?_, ?_⟩
              · rw [a1, a2, a3, b1]
              · rw [a2, a3, b2]
            · obtain ⟨b1, b2⟩ := ih rest fs
              simp only [menu_loop, if_neg h0, if_neg h1, if_neg h2, if_neg h3]
              exact ⟨by rw [b1], by rw [b2]⟩

theorem mkdirPadresExc_vacio (fs : SistemaArchivos) (p : String) :
    mkdirPadresExc [] fs p = Except.ok (mkdirPadres fs p) := by
  unfold mkdirPadresExc
  rw [List.find?_eq_none.2 (fun x _ => by simp)]

theorem mkdirPadresExc_error (archivos : List String) (fs : SistemaArchivos)
    (p : String) (e : ExcepcionPy)
    (h : mkdirPadresExc archivos fs p = Except.error e) :
    ∃ d, d ∈ archivos ∧
      e = .otraExcepcion ("[Errno 17] File exists: " ++ d) := by
  unfold mkdirPadresExc at h
  cases hf : (ancestros p).find? (fun d => archivos.contains d) with
  | none => rw [hf] at h; cases h
  | some d =>
    rw [hf] at h
    cases h
    have hd : archivos.contains d = true := List.find?_some hf
    exact ⟨d, by simpa using hd, rfl⟩

theorem descargar_video_exc_vacio (ydl : MotorYdl) (fs : SistemaArchivos)
    (url carpeta calidad : String) :
    descargar_video_exc ydl [] fs url carpeta calidad =
      Except.ok (descargar_video ydl fs url carpeta calidad) := by
  unfold descargar_video_exc
  rw [mkdirPadresExc_vacio]

theorem descargar_video_exc_error (ydl : MotorYdl) (archivos : List String)
    (fs : SistemaArchivos) (url carpeta calidad : String) (e : ExcepcionPy)
    (h : descargar_video_exc ydl archivos fs url carpeta calidad =
      Except.error e) :
    ∃ d, d ∈ archivos ∧
      e = .otraExcepcion ("[Errno 17] File exists: " ++ d) := by
  unfold descargar_video_exc at h
  cases hm : mkdirPadresExc archivos fs carpeta with
  | error e2 =>
    simp only [hm, Except.error.injEq] at h
    exact h ▸ mkdirPadresExc_error archivos fs carpeta e2 hm
  | ok fs1 => rw [hm] at h; cases h

theorem flujo_uno_exc_vacio (ydl : MotorYdl) (fs : SistemaArchivos) :
    ∀ ent : List String,
      flujo_uno_exc ydl [] fs ent = Except.ok (flujo_uno ydl fs ent) := by
  intro ent
  rcases ent with _ | ⟨l, _ | ⟨lc, _ | ⟨lca, rest3⟩⟩⟩
  · rfl
  · rcases hv : es_url_valida (recortar l) with _ | _
    · simp [flujo_uno_exc, flujo_uno, hv]
    · simp [flujo_uno_exc, flujo_uno, hv]
  · rcases hv : es_url_valida (recortar l) with _ | _
    · simp [flujo_uno_exc, flujo_uno, hv]
    · simp [flujo_uno_exc, flujo_uno, hv]
  · rcases hv : es_url_valida (recortar l) with _ | _
    · simp [flujo_uno_exc, flujo_uno, hv]
    · simp [flujo_uno_exc, flujo_uno, hv, descargar_video_exc_vacio]

theorem flujo_uno_exc_error (ydl : MotorYdl) (archivos : List String)
    (fs : SistemaArchivos) :
    ∀ (ent : List String) (e : ExcepcionPy),
      flujo_uno_exc ydl archivos fs ent = Except.error e →
      ∃ d, d ∈ archivos ∧
        e = .otraExcepcion ("[Errno 17] File exists: " ++ d) := by
  intro ent e h
  rcases ent with _ | ⟨l, _ | ⟨lc, _ | ⟨lca, rest3⟩⟩⟩
  · cases h
  · rcases hv : es_url_valida (recortar l) with _ | _
    · simp [flujo_uno_exc, hv] at h
    · simp [flujo_uno_exc, hv] at h
  · rcases hv : es_url_valida (recortar l) with _ | _
    · simp [flujo_uno_exc, hv] at h
    · simp [flujo_uno_exc, hv] at h
  · rcases hv : es_url_valida (recortar l) with _ | _
    · simp [flujo_uno_exc, hv] at h
    · simp only [flujo_uno_exc, hv, Bool.true_eq_false, if_false] at h
      cases hd : descargar_video_exc ydl archivos fs (recortar l)
          (if recortar lca = "" then "descargas_twitter" else recortar lca)
          (calidades (recortar lc)) with
      | error e2 =>
        simp only [hd, Except.error.injEq] at h
        exact h ▸ descargar_video_exc_error ydl archivos fs _ _ _ e2 hd
      | ok r => rw [hd] at h; cases h

theorem lote_exc_vacio (ydl : MotorYdl) (carpeta : String) (total : Nat) :
    ∀ (urls : List String) (fs : SistemaArchivos) (i : Nat),
      lote_exc ydl [] carpeta total fs urls i =
        Except.ok (lote ydl carpeta total fs urls i) := by
  intro urls
  induction urls with
  | nil => intro fs i; rfl
  | cons u us ih =>
    intro fs i
    simp [lote_exc, lote, descargar_video_exc_vacio, ih]

theorem lote_exc_error (ydl : MotorYdl) (archivos : List String)
    (carpeta : String) (total : Nat) :
    ∀ (urls : List String) (fs : SistemaArchivos) (i : Nat) (e : ExcepcionPy),
      lote_exc ydl archivos carpeta total fs urls i = Except.error e →
      ∃ d, d ∈ archivos ∧
        e = .otraExcepcion ("[Errno 17] File exists: " ++ d) := by
  intro urls
  induction urls with
  | nil => intro fs i e h; cases h
  | cons u us ih =>
    intro fs i e h
    simp only [lote_exc] at h
    cases hd : descargar_video_exc ydl archivos fs u carpeta with
    | error e2 =>
      simp only [hd, Except.error.injEq] at h
      exact h ▸ descargar_video_exc_error ydl archivos fs _ _ _ e2 hd
    | ok r =>
      simp only [hd] at h
      cases hl : lote_exc ydl archivos carpeta total r.fs us (i + 1) with
      | error e2 =>
        simp only [hl, Except.error.injEq] at h
        exact h ▸ ih r.fs (i + 1) e2 hl
      | ok s => simp only [hl] at h; cases h

theorem flujo_tres_exc_vacio (ydl : MotorYdl) (fs : SistemaArchivos)
    (ent : List String) :
    flujo_tres_exc ydl [] fs ent = Except.ok (flujo_tres ydl fs ent) := by
  rcases hie : (recolectar ent).urls.isEmpty with _ | _
  · rcases hresto : (recolectar ent).resto with _ | ⟨lc, rest⟩
    · simp [flujo_tres_exc, flujo_tres, hie, hresto]
    · simp [flujo_tres_exc, flujo_tres, hie, hresto, lote_exc_vacio]
  · simp [flujo_tres_exc, flujo_tres, hie]

theorem flujo_tres_exc_error (ydl : MotorYdl) (archivos : List String)
    (fs : SistemaArchivos) (ent : List String) (e : ExcepcionPy)
    (h : flujo_tres_exc ydl archivos fs ent = Except.error e) :
    ∃ d, d ∈ archivos ∧
      e = .otraExcepcion ("[Errno 17] File exists: " ++ d) := by
  rcases hie : (recolectar ent).urls.isEmpty with _ | _
  · rcases hresto : (recolectar ent).resto with _ | ⟨lc, rest⟩
    · simp [flujo_tres_exc, hie, hresto] at h
    · simp only [flujo_tres_exc, hie, hresto, Bool.false_eq_true, if_false] at h
      cases hl : lote_exc ydl archivos
          (if recortar lc = "" then "descargas_twitter" else recortar lc)
          (recolectar ent).urls.length fs (recolectar ent).urls 1 with
      | error e2 =>
        simp only [hl, Except.error.injEq] at h
        exact h ▸ lote_exc_error ydl archivos _ _ _ fs 1 e2 hl
      | ok b => rw [hl] at h; cases h
  · simp [flujo_tres_exc, hie] at h

theorem menu_loop_exc_vacio (ydl : MotorYdl) :
    ∀ (fuel : Nat) (ent : List String) (fs : SistemaArchivos),
      menu_loop_exc ydl [] fuel ent fs =
        Except.ok (menu_loop ydl fuel ent fs) := by
  intro fuel
  induction fuel with
  | zero => intro ent fs; rfl
  | succ n ih =>
    intro ent fs
    rcases ent with _ | ⟨l, rest⟩
    · rfl
    · by_cases h0 : recortar l = "0"
      · simp [menu_loop_exc, menu_loop, h0]
      · by_cases h1 : recortar l = "1"
        · simp [menu_loop_exc, menu_loop, if_neg h0, if_pos h1,
            flujo_uno_exc_vacio, ih]
        · by_cases h2 : recortar l = "2"
          · simp [menu_loop_exc, menu_loop, if_neg h0, if_neg h1, if_pos h2, ih]
          · by_cases h3 : recortar l = "3"
            · simp [menu_loop_exc, menu_loop, if_neg h0, if_neg h1, if_neg h2,
                if_pos h3, flujo_tres_exc_vacio, ih]
            · simp [menu_loop_exc, menu_loop, if_neg h0, if_neg h1, if_neg h2,
                if_neg h3, ih]

theorem menu_loop_exc_error (ydl : MotorYdl) (archivos : List String) :
    ∀ (fuel : Nat) (ent : List String) (fs : SistemaArchivos) (e : ExcepcionPy),
      menu_loop_exc ydl archivos fuel ent fs = Except.error e →
      ∃ d, d ∈ archivos ∧
        e = .otraExcepcion ("[Errno 17] File exists: " ++ d) := by
  intro fuel
  induction fuel with
  | zero => intro ent fs e h; cases h
  | succ n ih =>
    intro ent fs e h
    rcases ent with _ | ⟨l, rest⟩
    · cases h
    · by_cases h0 : recortar l = "0"
      · simp [menu_loop_exc, h0] at h
      · by_cases h1 : recortar l = "1"
        · simp only [menu_loop_exc, if_neg h0, if_pos h1] at h
          cases hf : flujo_uno_exc ydl archivos fs rest with
          | error e2 =>
            simp only [hf, Except.error.injEq] at h
            exact h ▸ flujo_uno_exc_error ydl archivos fs rest e2 hf
          | ok r =>
            simp only [hf] at h
            cases hm : menu_loop_exc ydl archivos n r.resto r.fs with
            | error e2 =>
              simp only [hm, Except.error.injEq] at h
              exact h ▸ ih _ _ e2 hm
            | ok s => simp only [hm] at h; cases h
        · by_cases h2 : recortar l = "2"
          · simp only [menu_loop_exc, if_neg h0, if_neg h1, if_pos h2] at h
            cases hm : menu_loop_exc ydl archivos n
                (flujo_dos ydl fs rest).resto fs with
            | error e2 =>
              simp only [hm, Except.error.injEq] at h
              exact h ▸ ih _ _ e2 hm
            | ok s => simp only [hm] at h; cases h
          · by_cases h3 : recortar l = "3"
            · simp only [menu_loop_exc, if_neg h0, if_neg h1, if_neg h2,
                if_pos h3] at h
              cases hf : flujo_tres_exc ydl archivos fs rest with
              | error e2 =>
                simp only [hf, Except.error.injEq] at h
                exact h ▸ flujo_tres_exc_error ydl archivos fs rest e2 hf
              | ok r =>
                simp only [hf] at h
                cases hm : menu_loop_exc ydl archivos n r.resto r.fs with
                | error e2 =>
                  simp only [hm, Except.error.injEq] at h
                  exact h ▸ ih _ _ e2 hm
                | ok s => simp only [hm] at h; cases h
            · simp only [menu_loop_exc, if_neg h0, if_neg h1, if_neg h2,
                if_neg h3] at h
              cases hm : menu_loop_exc ydl archivos n rest fs with
              | error e2 =>
                simp only [hm, Except.error.injEq] at h
                exact h ▸ ih _ _ e2 hm
              | ok s => simp only [hm] at h; cases h

/-- C3 (counterexample): with the regular file `twitter_downloader.py`
present, answering the destination prompt with that name makes the
`mkdir` of line 44 — which sits outside the `try:` of line 68 — raise
`FileExistsError` inside the download operation; the exception escapes
`descargar_video` and aborts the menu loop (the trailing `"0"` is never
processed), refuting "no exception arising inside a download or info
operation ever aborts the interactive menu loop or the running process". -/
theorem c3_contraejemplo :
    descargar_video_exc motorOk ["twitter_downloader.py"] []
        "https://x.com/a/status/1" "twitter_downloader.py" "best" =
      Except.error (.otraExcepcion
        ("[Errno 17] File exists: " ++ "twitter_downloader.py")) ∧
    menu_loop_exc motorOk ["twitter_downloader.py"] 2
        ["1", "https://x.com/a/status/1", "", "twitter_downloader.py", "0"] [] =
      Except.error (.otraExcepcion
        ("[Errno 17] File exists: " ++ "twitter_downloader.py")) := by
  constructor
  · rfl
  · rfl

/-- C3 (amended): during the interactive and batch flows, every exception
raised by the engine's extraction call is caught and printed inside the
operation and never propagates — the downloads attempted and the final file
system of a whole session are the same for every engine behaviour, and when
no destination collides with an existing regular file the refined loop
finishes normally with exactly the total model's session.  The one
non-bootstrap exception that does escape and abort the loop is the
destination-creation error of line 44, which sits outside the `try:`:
every exceptional session outcome is such a `FileExistsError` for one of
the regular files present. -/
theorem c3_enmendado (ydl ydl' : MotorYdl) (archivos : List String)
    (fuel : Nat) (ent : List String) (fs : SistemaArchivos) :
    ((menu_loop ydl fuel ent fs).llamadas = (menu_loop ydl' fuel ent fs).llamadas ∧
     (menu_loop ydl fuel ent fs).fs = (menu_loop ydl' fuel ent fs).fs) ∧
    (menu_loop_exc ydl [] fuel ent fs =
      Except.ok (menu_loop ydl fuel ent fs)) ∧
    (∀ e, menu_loop_exc ydl archivos fuel ent fs = Except.error e →
      ∃ d, d ∈ archivos ∧
        e = .otraExcepcion ("[Errno 17] File exists: " ++ d)) ∧
    (∀ url carpeta calidad m,
      ydl.extract url true = Except.error (.descargaError m) →
      ("\n❌ Error al descargar: " ++ m) ∈
        (descargar_video ydl fs url carpeta calidad).salida) ∧
    (∀ url carpeta calidad m,
      ydl.extract url true = Except.error (.otraExcepcion m) →
      ("\n❌ Error inesperado: " ++ m) ∈
        (descargar_video ydl fs url carpeta calidad).salida) ∧
    (∀ url e, ydl.extract url false = Except.error e →
      ("❌ No se pudo obtener información: " ++ mensajeDe e) ∈
        (obtener_info ydl url).salida) := by
  refine ⟨menu_loop_indep ydl ydl' fuel ent fs,
    menu_loop_exc_vacio ydl fuel ent fs,
    fun e h => menu_loop_exc_error ydl archivos fuel ent fs e h, ?_, ?_, ?_⟩
  · intro url carpeta calidad m h
    unfold descargar_video
    rw [h]
    simp
  · intro url carpeta calidad m h
    unfold descargar_video
    rw [h]
    simp
  · intro url e h
    unfold obtener_info
    rw [h]
    simp

theorem c3_testigo :
    ((menu_loop motorFalloDescarga 3
        ["1", "https://x.com/a/status/1", "", "", "0"] []).llamadas =
      (menu_loop motorOk 3
        ["1", "https://x.com/a/status/1", "", "", "0"] []).llamadas) ∧
    (menu_loop_exc motorFalloDescarga [] 3
        ["1", "https://x.com/a/status/1", "", "", "0"] [] =
      Except.ok (menu_loop motorFalloDescarga 3
        ["1", "https://x.com/a/status/1", "", "", "0"] [])) ∧
    (∃ d, d ∈ ["twitter_downloader.py"] ∧
      ExcepcionPy.otraExcepcion
          ("[Errno 17] File exists: " ++ "twitter_downloader.py") =
        .otraExcepcion ("[Errno 17] File exists: " ++ d)) ∧
    ("\n❌ Error al descargar: " ++ "privado") ∈
      (descargar_video motorFalloDescarga [] "u" "d" "best").salida :=
  ⟨(c3_enmendado motorFalloDescarga motorOk [] 3
      ["1", "https://x.com/a/status/1", "", "", "0"] []).1.1,
   (c3_enmendado motorFalloDescarga motorOk [] 3
      ["1", "https://x.com/a/status/1", "", "", "0"] []).2.1,
   (c3_enmendado motorOk motorOk ["twitter_downloader.py"] 2
      ["1", "https://x.com/a/status/1", "", "twitter_downloader.py", "0"] []).2.2.1
      (.otraExcepcion ("[Errno 17] File exists: " ++ "twitter_downloader.py"))
      rfl,
   (c3_enmendado motorFalloDescarga motorOk [] 3
      ["1", "https://x.com/a/status/1", "", "", "0"] []).2.2.2.1
      "u" "d" "best" "privado" rfl⟩
